import Mathlib

/-!
Verification of the vote-tallying storage layer
(`crates/ethereum_bridge/src/protocol/transactions/votes/storage.rs` and
`crates/ethereum_bridge/src/protocol/transactions/update.rs`).

The storage collaborator is modelled as a mapping from keys to optional
stored values; borsh serialization is modelled by a value universe `Val`
together with codecs whose decode is the partial inverse of encode.
-/

namespace Namada

/-- Validator identity: an opaque comparable identifier. -/
abbrev Validator := Nat

/-- Epoch: monotonically increasing integer identifying a staking period. -/
abbrev Epoch := Nat

/-- Amount: non-negative integer quantity of stake. -/
abbrev Amount := Nat

/-- Block height. -/
abbrev BlockHeight := Nat

/-- `Votes`: a mapping from validator to the block height at which that
validator's vote was recorded, modelled as an association list. -/
abbrev Votes := List (Validator × BlockHeight)

/-- `EpochedVotingPower`: a mapping from epoch to the amount of stake
contributed by validators voting while that epoch was active, modelled as an
association list. -/
abbrev EpochedVotingPower := List (Epoch × Amount)

/-- Sum of all recorded per-epoch contributions of an `EpochedVotingPower`. -/
def EpochedVotingPower.total (vp : EpochedVotingPower) : Amount :=
  (vp.map Prod.snd).sum

/-- `Tally`: the aggregate voting record for one fact
(struct `Tally` in `votes/mod.rs`, fields as used by `storage.rs`). -/
structure Tally where
  voting_power : EpochedVotingPower
  seen_by : Votes
  seen : Bool
deriving DecidableEq, Repr

/-- The error kinds of the storage layer (spec section 7). -/
inductive Error where
  | notFound
  | deserializationError
  | invalidState
  | storageIoError
deriving DecidableEq, Repr

/-- Storage keys. Each event identity owns five derived keys
(`vote_tallies::Keys`: body, seen, seen-by, voting-power,
voting-started-epoch); `other` covers every key not derived from a tally
identity. -/
inductive TKey where
  | body (i : Nat)
  | seen (i : Nat)
  | seenBy (i : Nat)
  | votingPower (i : Nat)
  | votingStartedEpoch (i : Nat)
  | other (n : Nat)
deriving DecidableEq, Repr

/-- The universe of stored (borsh-encoded) values, parameterized over the
body payload type `T`. A stored value decodes at an expected type exactly
when the constructor matches: this models deserialization failure on
mismatched bytes. -/
inductive Val (T : Type) where
  | vBool (b : Bool)
  | vVotes (v : Votes)
  | vPower (p : EpochedVotingPower)
  | vBody (t : T)
  | vEpoch (e : Epoch)
  | vAmount (a : Amount)

/-- The storage handle `WlStorage`: the key/value mapping, the current
epoch, and the total stake bonded at each epoch (collaborator interface
of spec section 6: `current_epoch()` and `total_stake_at(epoch)`). -/
structure WlStorage (T : Type) where
  store : TKey → Option (Val T)
  currentEpoch : Epoch
  totalStakeAt : Epoch → Amount

variable {T V : Type}

/-- `write_bytes`: store a value at a key, leaving all other keys alone. -/
def WlStorage.writeKey (s : WlStorage T) (k : TKey) (v : Val T) :
    WlStorage T :=
  { s with store := fun k2 => if k2 = k then some v else s.store k2 }

/-- `delete`: remove the value at a key, leaving all other keys alone. -/
def WlStorage.deleteKey (s : WlStorage T) (k : TKey) : WlStorage T :=
  { s with store := fun k2 => if k2 = k then none else s.store k2 }

/-- A codec between a Lean type and the stored-value universe, modelling
borsh encode/decode for one value type. `dec` returns `none` on a
constructor mismatch (malformed bytes for the expected type). -/
structure Codec (T V : Type) where
  enc : V → Val T
  dec : Val T → Option V

/-- Codec for `bool` values (the `seen` flag). -/
def boolCodec : Codec T Bool :=
  { enc := Val.vBool
    dec := fun v => match v with | .vBool b => some b | _ => none }

/-- Codec for `Votes` values (the `seen_by` map). -/
def votesCodec : Codec T Votes :=
  { enc := Val.vVotes
    dec := fun v => match v with | .vVotes w => some w | _ => none }

/-- Codec for `EpochedVotingPower` values. -/
def powerCodec : Codec T EpochedVotingPower :=
  { enc := Val.vPower
    dec := fun v => match v with | .vPower p => some p | _ => none }

/-- Codec for the body payload of type `T`. -/
def bodyCodec : Codec T T :=
  { enc := Val.vBody
    dec := fun v => match v with | .vBody t => some t | _ => none }

/-- Codec for `Epoch` values (the voting-started-epoch field). -/
def epochCodec : Codec T Epoch :=
  { enc := Val.vEpoch
    dec := fun v => match v with | .vEpoch e => some e | _ => none }

/-- Codec for token `Amount` values. -/
def amountCodec : Codec T Amount :=
  { enc := Val.vAmount
    dec := fun v => match v with | .vAmount a => some a | _ => none }

namespace read

/-- Modelled from the spec: `read::value` of `votes/read.rs` is not under
`src/`; spec section 4.2: reads and deserializes a value, failing with a
`NotFound` error if absent and a `DeserializationError` if
present-but-malformed. -/
def value (c : Codec T V) (s : WlStorage T) (k : TKey) : Except Error V :=
  match s.store k with
  | none => .error .notFound
  | some w =>
    match c.dec w with
    | none => .error .deserializationError
    | some v => .ok v

/-- Modelled from the spec: `read::maybe_value` of `votes/read.rs` is not
under `src/`; it reads the value if the key is present and returns `none`
if the key is absent — absence is not an error (spec section 4.4,
`maybe_read_seen`). -/
def maybe_value (c : Codec T V) (s : WlStorage T) (k : TKey) :
    Except Error (Option V) :=
  match s.store k with
  | none => .ok none
  | some w =>
    match c.dec w with
    | none => .error .deserializationError
    | some v => .ok (some v)

/-- Modelled from the spec: `read::amount_or_default` of `votes/read.rs` is
not under `src/`; spec section 4.2 `read_or_default`: reads and deserializes
a value, returning the type-defined default (zero for `Amount`) if absent,
and failing with a `DeserializationError` if present-but-malformed. -/
def amount_or_default (s : WlStorage T) (k : TKey) : Except Error Amount :=
  match s.store k with
  | none => .ok 0
  | some w =>
    match (amountCodec (T := T)).dec w with
    | none => .error .deserializationError
    | some a => .ok a

end read

/-- Modelled from the spec: `EpochedVotingPowerExt::fractional_stake` of
`votes/mod.rs` is not under `src/`; spec section 4.3: sums every recorded
per-epoch contribution and divides, in exact rational arithmetic, by the
total stake bonded at the reference epoch (the current epoch at evaluation
time), failing with an `InvalidState` error rather than dividing by zero
when that total stake is zero. -/
def fractional_stake (vp : EpochedVotingPower) (s : WlStorage T) :
    Except Error ℚ :=
  let totalStake := s.totalStakeAt s.currentEpoch
  if totalStake = 0 then .error .invalidState
  else .ok ((vp.total : ℚ) / (totalStake : ℚ))

/-- `FractionalVotingPower::ONE_THIRD`. -/
def ONE_THIRD : ℚ := 1 / 3

/-- `storage::write`: writes body, seen, seen-by and voting-power
unconditionally, and additionally writes the voting-started-epoch key to
the current epoch when `already_present` is false. -/
def write (s : WlStorage T) (i : Nat) (body : T) (tally : Tally)
    (already_present : Bool) : WlStorage T :=
  let s := s.writeKey (.body i) (.vBody body)
  let s := s.writeKey (.seen i) (.vBool tally.seen)
  let s := s.writeKey (.seenBy i) (.vVotes tally.seen_by)
  let s := s.writeKey (.votingPower i) (.vPower tally.voting_power)
  if !already_present then
    s.writeKey (.votingStartedEpoch i) (.vEpoch s.currentEpoch)
  else s

/-- Removing all five storage keys derived from identity `i`. -/
def deleteAllKeys (s : WlStorage T) (i : Nat) : WlStorage T :=
  ((((s.deleteKey (.body i)).deleteKey (.seen i)).deleteKey
      (.seenBy i)).deleteKey (.votingPower i)).deleteKey
    (.votingStartedEpoch i)

/-- `storage::delete`: reads the voting power, evaluates its fractional
stake and, if it is strictly greater than one third, reads the body to be
returned; then deletes all five keys. An error from a read returns early,
before any key is deleted, with the storage unchanged. The result pairs
the storage state at return with the outcome. -/
def delete (s : WlStorage T) (i : Nat) :
    WlStorage T × Except Error (Option T) :=
  match read.value powerCodec s (.votingPower i) with
  | .error e => (s, .error e)
  | .ok voting_power =>
    match fractional_stake voting_power s with
    | .error e => (s, .error e)
    | .ok stake =>
      let optBodyRes : Except Error (Option T) :=
        if stake > ONE_THIRD then
          match read.value bodyCodec s (.body i) with
          | .error e => .error e
          | .ok body => .ok (some body)
        else .ok none
      match optBodyRes with
      | .error e => (s, .error e)
      | .ok optBody => (deleteAllKeys s i, .ok optBody)

/-- `storage::read`: reconstructs a `Tally` from the seen, seen-by and
voting-power keys; the body key is not consulted. -/
def read (s : WlStorage T) (i : Nat) : Except Error Tally := do
  let seen ← read.value boolCodec s (.seen i)
  let seen_by ← read.value votesCodec s (.seenBy i)
  let voting_power ← read.value powerCodec s (.votingPower i)
  return { voting_power, seen_by, seen }

/-- `storage::read_body`: reads only the payload. -/
def read_body (s : WlStorage T) (i : Nat) : Except Error T :=
  read.value bodyCodec s (.body i)

/-- `storage::maybe_read_seen`: reads the seen flag if present, `none` if
absent. -/
def maybe_read_seen (s : WlStorage T) (i : Nat) :
    Except Error (Option Bool) :=
  read.maybe_value boolCodec s (.seen i)

namespace update

/-- `update::amount`: reads the `Amount` at the key (or the default if
absent), applies the transform, writes the result back and returns it.
The result pairs the storage state at return with the outcome. -/
def amount (s : WlStorage T) (k : TKey) (f : Amount → Amount) :
    WlStorage T × Except Error Amount :=
  match read.amount_or_default s k with
  | .error e => (s, .error e)
  | .ok a =>
    let a := f a
    (s.writeKey k (.vAmount a), .ok a)

/-- `update::value`: reads the value at the key, applies the transform,
writes the result back and returns it. The result pairs the storage state
at return with the outcome. -/
def value (c : Codec T V) (s : WlStorage T) (k : TKey) (f : V → V) :
    WlStorage T × Except Error V :=
  match read.value c s k with
  | .error e => (s, .error e)
  | .ok v =>
    let v := f v
    (s.writeKey k (c.enc v), .ok v)

end update

end Namada

namespace Namada

/-- A concrete storage state for evaluation: identity `0` holds a tally
with voting power 2 out of a total stake of 3, and body `7`. -/
def sampleStore : WlStorage Nat :=
  { store := fun k =>
      match k with
      | .body 0 => some (.vBody 7)
      | .seen 0 => some (.vBool false)
      | .seenBy 0 => some (.vVotes [(1, 5)])
      | .votingPower 0 => some (.vPower [(0, 2)])
      | .votingStartedEpoch 0 => some (.vEpoch 0)
      | _ => none
    currentEpoch := 1
    totalStakeAt := fun _ => 3 }

/-- The empty storage state over body type `Nat`, with unit total stake. -/
def emptyStore : WlStorage Nat :=
  { store := fun _ => none
    currentEpoch := 0
    totalStakeAt := fun _ => 1 }

/-- `sampleStore` with zero total stake bonded at every epoch. -/
def zeroStakeStore : WlStorage Nat :=
  { sampleStore with totalStakeAt := fun _ => 0 }

/-- `sampleStore` with the body key absent: quorum passes but the body
read fails. -/
def noBodyStore : WlStorage Nat :=
  { sampleStore with
    store := fun k =>
      match k with
      | .body 0 => none
      | k => sampleStore.store k }

end Namada

namespace Namada

variable {T V : Type}

theorem writeKey_store_self (s : WlStorage T) (k : TKey) (v : Val T) :
    (s.writeKey k v).store k = some v := by
  simp [WlStorage.writeKey]

theorem writeKey_store_other (s : WlStorage T) (k k2 : TKey) (v : Val T)
    (h : k2 ≠ k) : (s.writeKey k v).store k2 = s.store k2 := by
  simp [WlStorage.writeKey, h]

theorem deleteAllKeys_spec (s : WlStorage T) (i : Nat) (k : TKey) :
    (deleteAllKeys s i).store k =
      if k = .body i ∨ k = .seen i ∨ k = .seenBy i ∨ k = .votingPower i ∨
          k = .votingStartedEpoch i then none
      else s.store k := by
  simp only [deleteAllKeys, WlStorage.deleteKey]
  rcases k with i2 | i2 | i2 | i2 | i2 | i2 <;> by_cases h : i2 = i <;>
    simp [h]

theorem delete_ok_characterization (s : WlStorage T) (i : Nat)
    (vp : EpochedVotingPower) (b : T)
    (hp : s.store (.votingPower i) = some (.vPower vp))
    (hb : s.store (.body i) = some (.vBody b))
    (ht : s.totalStakeAt s.currentEpoch ≠ 0) :
    delete s i = (deleteAllKeys s i,
      .ok (if ONE_THIRD < (vp.total : ℚ) / (s.totalStakeAt s.currentEpoch : ℚ)
           then some b else none)) := by
  unfold delete
  simp only [read.value, hp, hb, powerCodec, bodyCodec, fractional_stake,
    if_neg ht]
  by_cases hc : ONE_THIRD <
      (vp.total : ℚ) / (s.totalStakeAt s.currentEpoch : ℚ) <;>
    simp [hc]

end Namada

namespace Namada

variable {T V : Type}

/-- C1: for every stored tally and body, `delete` returns `some body` — the
body value stored at the moment of deletion — if and only if the fractional
stake of the stored voting power, evaluated against the total stake at the
current reference epoch, is strictly greater than one third; at exactly one
third or below it returns `none`. -/
theorem C1_delete_returns_body_iff_over_one_third (s : WlStorage T)
    (i : Nat) (vp : EpochedVotingPower) (b : T)
    (hp : s.store (.votingPower i) = some (.vPower vp))
    (hb : s.store (.body i) = some (.vBody b))
    (ht : s.totalStakeAt s.currentEpoch ≠ 0) :
    delete s i = (deleteAllKeys s i,
      .ok (if ONE_THIRD < (vp.total : ℚ) / (s.totalStakeAt s.currentEpoch : ℚ)
           then some b else none)) :=
  delete_ok_characterization s i vp b hp hb ht

/-- Witness for C1 at a concrete storage state: voting power 2, total
stake 3, so the fraction 2/3 exceeds one third. -/
theorem C1_witness :
    sampleStore.store (.votingPower 0) = some (.vPower [(0, 2)]) ∧
    sampleStore.store (.body 0) = some (.vBody 7) ∧
    sampleStore.totalStakeAt sampleStore.currentEpoch ≠ 0 ∧
    delete sampleStore 0 = (deleteAllKeys sampleStore 0,
      .ok (if ONE_THIRD < ((EpochedVotingPower.total [(0, 2)] : ℚ) /
            (sampleStore.totalStakeAt sampleStore.currentEpoch : ℚ))
           then some 7 else none)) :=
  ⟨rfl, rfl, by decide,
    C1_delete_returns_body_iff_over_one_third sampleStore 0 [(0, 2)] 7
      rfl rfl (by decide)⟩

/-- C2: after a successful `delete`, all five storage keys of the identity
(body, seen, seen-by, voting-power, voting-started-epoch) are absent,
regardless of the quorum outcome and of the returned option value. -/
theorem C2_delete_removes_all_five_keys (s s2 : WlStorage T) (i : Nat)
    (ob : Option T) (h : delete s i = (s2, .ok ob)) :
    s2.store (.body i) = none ∧ s2.store (.seen i) = none ∧
    s2.store (.seenBy i) = none ∧ s2.store (.votingPower i) = none ∧
    s2.store (.votingStartedEpoch i) = none := by
  have hs2 : s2 = deleteAllKeys s i := by
    unfold delete at h
    repeat' split at h
    all_goals simp_all
  subst hs2
  refine ⟨?_, ?_, ?_, ?_, ?_⟩ <;> simp [deleteAllKeys_spec]

/-- Witness for C2 at a concrete storage state. -/
theorem C2_witness :
    delete sampleStore 0 = (deleteAllKeys sampleStore 0, .ok (some 7)) ∧
    ((deleteAllKeys sampleStore 0).store (.body 0) = none ∧
     (deleteAllKeys sampleStore 0).store (.seen 0) = none ∧
     (deleteAllKeys sampleStore 0).store (.seenBy 0) = none ∧
     (deleteAllKeys sampleStore 0).store (.votingPower 0) = none ∧
     (deleteAllKeys sampleStore 0).store (.votingStartedEpoch 0) = none) :=
  have h : delete sampleStore 0
      = (deleteAllKeys sampleStore 0, .ok (some 7)) := by
    rw [delete_ok_characterization sampleStore 0 [(0, 2)] 7 rfl rfl
      (by decide)]
    norm_num [EpochedVotingPower.total, ONE_THIRD, sampleStore]
  ⟨h, C2_delete_removes_all_five_keys sampleStore
    (deleteAllKeys sampleStore 0) 0 (some 7) h⟩

end Namada

namespace Namada

variable {T V : Type}

/-- C3: `write` with `already_present = false` sets the
voting-started-epoch key to the current epoch; with
`already_present = true` it leaves that key exactly as it was — even if
the current epoch has advanced in between — while the other four keys are
written unconditionally in both cases; two sequential writes with
`already_present = false` then `true` preserve the first-written epoch. -/
theorem C3_write_voting_started_epoch_only_on_creation (s : WlStorage T)
    (i : Nat) (b b2 : T) (t t2 : Tally) (e2 : Epoch) :
    (write s i b t false).store (.votingStartedEpoch i)
        = some (.vEpoch s.currentEpoch) ∧
    (write s i b2 t2 true).store (.votingStartedEpoch i)
        = s.store (.votingStartedEpoch i) ∧
    (∀ ap : Bool,
      (write s i b t ap).store (.body i) = some (.vBody b) ∧
      (write s i b t ap).store (.seen i) = some (.vBool t.seen) ∧
      (write s i b t ap).store (.seenBy i) = some (.vVotes t.seen_by) ∧
      (write s i b t ap).store (.votingPower i)
          = some (.vPower t.voting_power)) ∧
    (write { write s i b t false with currentEpoch := e2 } i b2 t2
        true).store (.votingStartedEpoch i)
      = some (.vEpoch s.currentEpoch) := by
  refine ⟨?_, ?_, ?_, ?_⟩
  · simp [write, WlStorage.writeKey]
  · simp [write, WlStorage.writeKey]
  · intro ap
    cases ap <;>
      refine ⟨?_, ?_, ?_, ?_⟩ <;> simp [write, WlStorage.writeKey]
  · simp [write, WlStorage.writeKey]

/-- C5: `read` performed right after
`write keys body tally already_present` returns `Except.ok` of exactly the
written tally, for every body and either flag value; the body key is not
consulted, so the result is unchanged even if the body key is overwritten
with a value of any shape. -/
theorem C5_read_after_write_returns_tally (s : WlStorage T) (i : Nat)
    (b : T) (t : Tally) (ap : Bool) :
    read (write s i b t ap) i = .ok t ∧
    (∀ v : Val T,
      read ((write s i b t ap).writeKey (.body i) v) i = .ok t) := by
  constructor
  · cases ap <;> cases t <;>
      simp [read, write, read.value, WlStorage.writeKey, boolCodec,
        votesCodec, powerCodec, Bind.bind, Except.bind, Pure.pure,
        Except.pure]
  · intro v
    cases ap <;> cases t <;>
      simp [read, write, read.value, WlStorage.writeKey, boolCodec,
        votesCodec, powerCodec, Bind.bind, Except.bind, Pure.pure,
        Except.pure]

/-- C6: `maybe_read_seen` returns `Except.ok none` when the seen key is
absent (no write has ever been performed for the identity), and
`Except.ok (some b)` where `b` is the seen flag of the most recently
written tally otherwise; absence of the key is not an error. -/
theorem C6_maybe_read_seen_none_or_last_written (s0 s : WlStorage T)
    (i : Nat) (b : T) (t : Tally) (ap : Bool)
    (h : s0.store (.seen i) = none) :
    maybe_read_seen s0 i = .ok none ∧
    maybe_read_seen (write s i b t ap) i = .ok (some t.seen) := by
  constructor
  · simp [maybe_read_seen, read.maybe_value, h]
  · cases ap <;>
      simp [maybe_read_seen, read.maybe_value, write, WlStorage.writeKey,
        boolCodec]

/-- Witness for C6: the empty store has no seen key; after a write, the
written seen flag is returned. -/
theorem C6_witness :
    emptyStore.store (.seen 0) = none ∧
    (maybe_read_seen emptyStore 0 = .ok none ∧
     maybe_read_seen (write emptyStore 0 5 ⟨[(0, 1)], [(2, 3)], true⟩ false) 0
       = .ok (some true)) :=
  ⟨rfl, C6_maybe_read_seen_none_or_last_written emptyStore emptyStore 0 5
    ⟨[(0, 1)], [(2, 3)], true⟩ false rfl⟩

end Namada

namespace Namada

variable {T V : Type}

/-- C4: evaluating a tally's fractional stake when the total stake bonded
at the reference epoch is zero fails with an `InvalidState` error rather
than dividing by zero, and `delete` propagates this error to its caller
instead of returning a fraction. -/
theorem C4_zero_total_stake_invalid_state (s : WlStorage T) (i : Nat)
    (vp : EpochedVotingPower)
    (ht : s.totalStakeAt s.currentEpoch = 0)
    (hp : s.store (.votingPower i) = some (.vPower vp)) :
    fractional_stake vp s = .error .invalidState ∧
    delete s i = (s, .error .invalidState) := by
  have hf : fractional_stake vp s = .error .invalidState := by
    simp [fractional_stake, ht]
  refine ⟨hf, ?_⟩
  unfold delete
  simp [read.value, hp, powerCodec, hf]

/-- Witness for C4 at a concrete storage state with zero total stake. -/
theorem C4_witness :
    zeroStakeStore.totalStakeAt zeroStakeStore.currentEpoch = 0 ∧
    zeroStakeStore.store (.votingPower 0) = some (.vPower [(0, 2)]) ∧
    (fractional_stake [(0, 2)] zeroStakeStore = .error .invalidState ∧
     delete zeroStakeStore 0 = (zeroStakeStore, .error .invalidState)) :=
  ⟨rfl, rfl,
    C4_zero_total_stake_invalid_state zeroStakeStore 0 [(0, 2)] rfl rfl⟩

/-- C9: `delete` is atomic with respect to errors — if reading the
voting-power key fails, or if the quorum check passes but reading the body
key fails, `delete` returns that error with the storage exactly as it was
before the call, no key having been deleted. -/
theorem C9_delete_error_is_atomic (s : WlStorage T) (i : Nat) (e : Error) :
    (read.value powerCodec s (.votingPower i) = .error e →
      delete s i = (s, .error e)) ∧
    (∀ (vp : EpochedVotingPower) (stake : ℚ),
      read.value powerCodec s (.votingPower i) = .ok vp →
      fractional_stake vp s = .ok stake → ONE_THIRD < stake →
      read.value bodyCodec s (.body i) = .error e →
      delete s i = (s, .error e)) ∧
    (∀ (s2 : WlStorage T), delete s i = (s2, .error e) → s2 = s) := by
  refine ⟨?_, ?_, ?_⟩
  · intro h
    unfold delete
    simp [h]
  · intro vp stake hvp hst hgt hb
    unfold delete
    simp [hvp, hst, hb, hgt]
  · intro s2 h
    unfold delete at h
    repeat' split at h
    all_goals simp_all

/-- Witness for C9: quorum passes on the concrete store but the body key
is absent, so `delete` fails with `NotFound` and leaves storage intact. -/
theorem C9_witness :
    read.value powerCodec noBodyStore (.votingPower 0) = .ok [(0, 2)] ∧
    fractional_stake [(0, 2)] noBodyStore
      = .ok ((EpochedVotingPower.total [(0, 2)] : ℚ) /
          (noBodyStore.totalStakeAt noBodyStore.currentEpoch : ℚ)) ∧
    ONE_THIRD < ((EpochedVotingPower.total [(0, 2)] : ℚ) /
        (noBodyStore.totalStakeAt noBodyStore.currentEpoch : ℚ)) ∧
    read.value bodyCodec noBodyStore (.body 0) = .error .notFound ∧
    delete noBodyStore 0 = (noBodyStore, .error .notFound) :=
  have hgt : ONE_THIRD < ((EpochedVotingPower.total [(0, 2)] : ℚ) /
      (noBodyStore.totalStakeAt noBodyStore.currentEpoch : ℚ)) := by
    norm_num [EpochedVotingPower.total, ONE_THIRD, noBodyStore, sampleStore]
  ⟨rfl, rfl, hgt, rfl,
    (C9_delete_error_is_atomic noBodyStore 0 .notFound).2.1 _ _ rfl rfl
      hgt rfl⟩

end Namada

namespace Namada

variable {T V : Type}

/-- Counterexample to C7 as stated: `update::value` with the identity
transform, applied to a key with no stored value, fails with `NotFound`
instead of reading a default. -/
theorem C7_counterexample :
    (update.value amountCodec emptyStore (.other 0) id).2
      = .error .notFound ∧
    emptyStore.store (.other 0) = none := ⟨rfl, rfl⟩

/-- C7 (amended): `update::amount` applied to a key with no stored value
does not fail — it reads the type-defined default (zero), applies the
transform, writes the result back and returns it — while `update::value`
applied to a key with no stored value fails with a `NotFound` error. -/
theorem C7_update_amount_defaults_value_fails (s : WlStorage T) (k : TKey)
    (f : Amount → Amount) (c : Codec T V) (g : V → V)
    (h : s.store k = none) :
    update.amount s k f = (s.writeKey k (.vAmount (f 0)), .ok (f 0)) ∧
    update.value c s k g = (s, .error .notFound) := by
  constructor
  · simp [update.amount, read.amount_or_default, h]
  · simp [update.value, read.value, h]

/-- Witness for C7 (amended) at the empty store with the successor
transform. -/
theorem C7_witness :
    emptyStore.store (.other 0) = none ∧
    (update.amount emptyStore (.other 0) Nat.succ
        = (emptyStore.writeKey (.other 0) (.vAmount 1), .ok 1) ∧
     update.value boolCodec emptyStore (.other 0) not
        = (emptyStore, .error .notFound)) :=
  ⟨rfl, C7_update_amount_defaults_value_fails emptyStore (.other 0)
    Nat.succ boolCodec not rfl⟩

/-- C8: after writing an encodable value `v` at key `k`, `update::value`
with the identity transform succeeds returning `v`, it leaves every key of
the storage unchanged, and a subsequent read of `k` yields `v` unchanged. -/
theorem C8_update_value_identity_roundtrip (c : Codec T V)
    (s : WlStorage T) (k : TKey) (v : V)
    (hrt : c.dec (c.enc v) = some v) :
    (update.value c (s.writeKey k (c.enc v)) k id).2 = .ok v ∧
    (∀ k2 : TKey,
      (update.value c (s.writeKey k (c.enc v)) k id).1.store k2
        = (s.writeKey k (c.enc v)).store k2) ∧
    read.value c (update.value c (s.writeKey k (c.enc v)) k id).1 k
      = .ok v := by
  have hread : read.value c (s.writeKey k (c.enc v)) k = .ok v := by
    simp [read.value, WlStorage.writeKey, hrt]
  refine ⟨?_, ?_, ?_⟩
  · simp [update.value, hread]
  · intro k2
    unfold update.value
    rw [hread]
    by_cases hk : k2 = k <;> simp [WlStorage.writeKey, hk]
  · simp [update.value, hread, read.value, WlStorage.writeKey, hrt]

/-- Witness for C8 with the amount codec at a concrete value. -/
theorem C8_witness :
    (amountCodec (T := Nat)).dec ((amountCodec (T := Nat)).enc 42)
      = some 42 ∧
    ((update.value amountCodec (emptyStore.writeKey (.other 1)
        ((amountCodec (T := Nat)).enc 42)) (.other 1) id).2 = .ok 42 ∧
     (∀ k2 : TKey,
       (update.value amountCodec (emptyStore.writeKey (.other 1)
           ((amountCodec (T := Nat)).enc 42)) (.other 1) id).1.store k2
         = (emptyStore.writeKey (.other 1)
             ((amountCodec (T := Nat)).enc 42)).store k2) ∧
     read.value amountCodec (update.value amountCodec
         (emptyStore.writeKey (.other 1)
           ((amountCodec (T := Nat)).enc 42)) (.other 1) id).1 (.other 1)
       = .ok 42) :=
  ⟨rfl, C8_update_value_identity_roundtrip amountCodec emptyStore
    (.other 1) 42 rfl⟩

/-- C10: `write` touches only the storage keys derived from the given
identity — every other key keeps its prior value — and with
`already_present = true` the voting-started-epoch key is also untouched,
so at most four keys change there, at most five with
`already_present = false`. -/
theorem C10_write_frame (s : WlStorage T) (i : Nat) (b : T) (t : Tally)
    (ap : Bool) (k : TKey)
    (h : k ≠ .body i ∧ k ≠ .seen i ∧ k ≠ .seenBy i ∧
      k ≠ .votingPower i ∧ k ≠ .votingStartedEpoch i) :
    (write s i b t ap).store k = s.store k ∧
    (write s i b t true).store (.votingStartedEpoch i)
      = s.store (.votingStartedEpoch i) := by
  obtain ⟨h1, h2, h3, h4, h5⟩ := h
  constructor
  · cases ap <;>
      simp [write, WlStorage.writeKey, h1, h2, h3, h4, h5]
  · simp [write, WlStorage.writeKey]

/-- Witness for C10 at a concrete key not derived from the identity. -/
theorem C10_witness :
    ((TKey.other 9 ≠ .body 0 ∧ TKey.other 9 ≠ .seen 0 ∧
      TKey.other 9 ≠ .seenBy 0 ∧ TKey.other 9 ≠ .votingPower 0 ∧
      TKey.other 9 ≠ .votingStartedEpoch 0) ∧
     ((write sampleStore 0 5 ⟨[(0, 1)], [(2, 3)], true⟩ false).store
         (.other 9) = sampleStore.store (.other 9) ∧
      (write sampleStore 0 5 ⟨[(0, 1)], [(2, 3)], true⟩ true).store
         (.votingStartedEpoch 0)
        = sampleStore.store (.votingStartedEpoch 0))) :=
  ⟨by decide,
    C10_write_frame sampleStore 0 5 ⟨[(0, 1)], [(2, 3)], true⟩ false
      (.other 9) (by decide)⟩

end Namada
